import Mathlib

/-!
Verification of the txtai `Embeddings` core (src/python/txtai/embeddings.py)
against its natural-language specification.

Vectors are embedded as `List α` over a commutative ring (instantiated at `ℚ`
where exact executability is wanted and at `ℝ` where the L2 norm is involved);
matrices are lists of row vectors.  numpy operations are translated element-wise:
`a.dot(b.transpose())`, broadcasting of an `(n,1) * (1,d)` product, row-wise
in-place updates, and so on, following the source line by line.  External
collaborators (the faiss ANN library, sklearn's TruncatedSVD, the vector-source
factory, pickle, the filesystem) are not part of the repository; where a claim
depends on them they are modelled from the specification, and each such
definition is marked `Modelled from the spec:` in its doc comment.

The stateful method `Embeddings.index` is embedded as a state-transition
function with an explicit failure-injection parameter: each failure point
corresponds to a line of the method at which a Python exception can be raised,
and the resulting state records exactly the `self` assignments performed before
that line, which is what a raised exception leaves behind.
-/

namespace Txtai

section LinAlg

variable {α : Type} [CommRing α]

/-- Dot product of two equal-length vectors (`np.dot` on 1-D arrays). -/
def dotL (u v : List α) : α := (List.zipWith (· * ·) u v).sum

/-- Componentwise subtraction (`u - v` on equal-shape arrays). -/
def subL (u v : List α) : List α := List.zipWith (· - ·) u v

/-- Componentwise addition (`u + v` on equal-shape arrays). -/
def addL (u v : List α) : List α := List.zipWith (· + ·) u v

/-- Scalar times vector (`c * v`). -/
def smulL (c : α) (v : List α) : List α := v.map (c * ·)

/-- One row of `e.dot(pc.transpose())`: the vector of dot products of `row`
with each row of `pc`. -/
def matVecT (row : List α) (pc : List (List α)) : List α := pc.map (fun c => dotL row c)

/-- Row vector times matrix, `f.dot(pc)` for a 1-D `f` of length `pc.length`:
`Σ_i f_i • pc_i`.  (Behaviour on ragged input is irrelevant: the source only
calls this with `f.length = pc.length` and rectangular `pc`.) -/
def vecMatL : List α → List (List α) → List α
  | [c], [r] => smulL c r
  | c :: cs, r :: rs => addL (smulL c r) (vecMatL cs rs)
  | _, _ => []

/-- `Embeddings.removePC` on a matrix (`len(embeddings.shape) > 1`).
Translation of embeddings.py lines 130-152: `factor = embeddings.dot(pc.transpose())`;
if `pc.shape[0] == 1` then `embeddings -= factor * pc` (an `(n,1) * (1,d)`
broadcast, i.e. row `x` becomes `row - factor[x][0] * pc[0]`); otherwise each
row `x` becomes `embeddings[x] - factor[x].dot(pc)`. -/
def removePC (pc : List (List α)) (e : List (List α)) : List (List α) :=
  let factor := e.map (fun row => matVecT row pc)
  if pc.length = 1 then
    List.zipWith (fun row f => subL row (smulL (f.headD 0) (pc.headD []))) e factor
  else
    List.zipWith (fun row f => subL row (vecMatL f pc)) e factor

/-- `Embeddings.removePC` on a single vector (no batch dimension).
Translation of the same branches of embeddings.py lines 139-152 for 1-D input:
`factor = embedding.dot(pc.transpose())` has shape `(k,)`.  When
`pc.shape[0] == 1` the code runs `embeddings -= factor * pc`: the
`(1,) * (1,d)` product broadcasts to `(1,d)`, and NumPy's in-place subtraction
into the `(d,)` input raises a non-broadcastable-output `ValueError` — an
error, modelled as `none`, not a computed value.  Otherwise the final branch
`embedding -= factor.dot(pc)` computes the subtraction. -/
def removePCvec (pc : List (List α)) (v : List α) : Option (List α) :=
  let factor := matVecT v pc
  if pc.length = 1 then none
  else some (subL v (vecMatL factor pc))

/-- The mathematical specification of principal-component removal:
`input - (input · pcᵀ) · pc`. -/
def removePCspec (pc : List (List α)) (v : List α) : List α :=
  subL v (vecMatL (matVecT v pc) pc)

end LinAlg

/-! ### Normalizer (`Embeddings.normalize`, embeddings.py lines 154-166)

`np.linalg.norm(v)` is the square root of the sum of squares, so the L2 norm
forces the embedding over `ℝ`. -/

/-- Sum of squares of the components of a vector. -/
def sumsq (v : List ℝ) : ℝ := (v.map (fun x => x ^ 2)).sum

/-- `np.linalg.norm(v)` for a 1-D array: the L2 norm. -/
noncomputable def norm2 (v : List ℝ) : ℝ := Real.sqrt (sumsq v)

/-- `Embeddings.normalize` on a single vector: `embeddings /= np.linalg.norm(embeddings)`. -/
noncomputable def normalizeVec (v : List ℝ) : List ℝ := v.map (fun x => x / norm2 v)

/-- `Embeddings.normalize` on a matrix:
`embeddings /= np.linalg.norm(embeddings, axis=1)[:, np.newaxis]`, i.e. each
row is divided by its own L2 norm. -/
noncomputable def normalizeMatrix (m : List (List ℝ)) : List (List ℝ) :=
  m.map (fun row => row.map (fun x => x / norm2 row))

/-! ### ANN structure-selection policy (embeddings.py lines 103-110, 208) -/

/-- The faiss factory string chosen in `Embeddings.index`, line 105:
`"IVF100,SQ8" if embeddings.shape[0] >= 5000 else "IDMap,SQ8"` where
`shape[0]` is the number of documents. -/
def indexFactoryParams (n : ℕ) : String :=
  if 5000 ≤ n then "IVF100,SQ8" else "IDMap,SQ8"

/-- The two index-structure families the source can request from faiss. -/
inductive AnnKind : Type
  | flatIdMap : AnnKind
  | partitioned : ℕ → AnnKind
deriving DecidableEq

/-- Modelled from the spec: the structure denoted by a faiss `index_factory`
string (faiss itself is an external library).  `"IDMap,SQ8"` is the flat,
explicitly id-keyed structure; `"IVF100,SQ8"` is the inverted-file structure
with 100 partitions. -/
def annKindOf (params : String) : Option AnnKind :=
  if params = "IVF100,SQ8" then some (AnnKind.partitioned 100)
  else if params = "IDMap,SQ8" then some AnnKind.flatIdMap
  else none

/-- Modelled from the spec: whether the structure needs a training phase before
vectors can be added — the flat structure needs none, the partitioned one
learns its partition centers. -/
def annRequiresTraining : AnnKind → Bool
  | AnnKind.flatIdMap => false
  | AnnKind.partitioned _ => true

/-- The probe count set on every query, `Embeddings.search` line 208:
`self.embeddings.nprobe = 6`. -/
def searchNprobe : ℕ := 6

/-! ### ANN search (Modelled from the spec)

faiss's search routine is external to the repository.  Per the spec (§4.3),
`Search(queryVector, limit)` scores stored entries by inner product, orders
them descending by score with a deterministic tie-break, and returns at most
`limit` of them, all of them when `limit` exceeds the index size. -/

/-- Every stored `(id, vector)` pair scored by inner product with the query. -/
def annScores (entries : List (Int × List ℚ)) (q : List ℚ) : List (Int × ℚ) :=
  entries.map (fun e => (e.1, dotL q e.2))

/-- Score-descending order on scored results. -/
def scoreGe (a b : Int × ℚ) : Prop := b.2 ≤ a.2

instance : DecidableRel scoreGe := fun a b => inferInstanceAs (Decidable (b.2 ≤ a.2))

instance : IsTotal (Int × ℚ) scoreGe := ⟨fun a b => le_total b.2 a.2⟩

instance : IsTrans (Int × ℚ) scoreGe := ⟨fun _ _ _ h1 h2 => le_trans h2 h1⟩

/-- Modelled from the spec: the ANN `Search` operation — score all stored
entries, sort descending by score (deterministic tie-break), keep the first
`limit`. -/
def annSearch (entries : List (Int × List ℚ)) (q : List ℚ) (limit : ℕ) :
    List (Int × ℚ) :=
  (List.insertionSort scoreGe (annScores entries q)).take limit

/-! ### Data model (`Embeddings.__init__`, embeddings.py lines 27-48) -/

/-- The recognized configuration keys (spec §3): `path`, `method`, `scoring`,
`pca`. -/
structure Config : Type where
  path : String
  method : Option String
  scoring : Option String
  pca : Option ℕ
deriving DecidableEq

/-- Modelled from the spec: the scoring collaborator (`Scoring.create` /
`scoring.load` / `scoring.save`) is opaque to the core; it is represented by
the selector it was created from plus its opaque learned data. -/
structure ScoringModel : Type where
  sel : String
  data : ℕ
deriving DecidableEq

/-- Modelled from the spec: the vector-source model produced by
`Factory.create(method, path, …, scoring)` — a deterministic registry resolves
the same arguments to the same model, so the model is represented by its
construction arguments. -/
structure VectorModel : Type where
  method : Option String
  path : String
  scoring : Option ScoringModel
deriving DecidableEq

/-- The faiss index object held in `self.embeddings`: the factory string it was
built from, whether `train` has run, and the `(id, vector)` pairs added. -/
structure AnnIndex (α : Type) : Type where
  params : String
  trained : Bool
  entries : List (Int × List α)
deriving DecidableEq

/-- The mutable fields of an `Embeddings` object: `self.config`,
`self.embeddings`, `self.lsa`, `self.scoring`, `self.model`. -/
structure EmbState (α : Type) : Type where
  config : Option Config
  embeddings : Option (AnnIndex α)
  lsa : Option (List (List α))
  scoring : Option ScoringModel
  model : Option VectorModel
deriving DecidableEq

/-- A freshly constructed `Embeddings()` with no configuration. -/
def emptyState (α : Type) : EmbState α := ⟨none, none, none, none, none⟩

/-- The operations inside `Embeddings.index` at which a Python exception can
surface: a `pickle.load` in the stream-reading loop (line 90), the
`TruncatedSVD` fit inside `buildLSA` (line 97), `removePC` (line 98),
`faiss` `train` (line 109) and `add_with_ids` (line 110). -/
inductive BuildStep : Type
  | readStream : BuildStep
  | fitReducer : BuildStep
  | applyPC : BuildStep
  | train : BuildStep
  | add : BuildStep
deriving DecidableEq

/-- `Embeddings.index` (embeddings.py lines 75-110) as a state transition.

Inputs stand for the external collaborators' outputs: `ids` and `raw` are the
id list and the streamed raw vectors returned by `self.model.index(documents)`,
and `svd` is the component matrix the `TruncatedSVD` fit would produce.
`failAt` injects a failure at one of the `BuildStep` points (`none` = the call
succeeds).  The result is `(error?, final self-state, temp-file-exists?)`: the
Boolean records whether the temporary stream file written by the vector source
still exists when the call returns — `os.remove(stream)` (line 93) runs only
after the reading loop completes.

Mutation order follows the source: `self.lsa` is assigned on line 97 (before
`removePC` runs), `self.embeddings` is assigned the fresh untrained index on
line 106 (before `train` and `add_with_ids` run, which then mutate that same
object in place). -/
noncomputable def index (failAt : Option BuildStep) (ids : List Int)
    (raw : List (List ℝ)) (svd : List (List ℝ)) (s : EmbState ℝ) :
    Option String × EmbState ℝ × Bool :=
  -- `self.model.index(documents)` has written the vector stream to a temp file
  if failAt = some BuildStep.readStream then
    -- a `pickle.load` in the loop raised: line 93 is never reached
    (some "stream read failed", s, true)
  else
    -- the loop drained the stream and `os.remove(stream)` deleted the file
    match s.config with
    | none => (some "config is None", s, false)  -- `self.config.get("pca")` raises
    | some cfg =>
      let step1 : Option String × EmbState ℝ × List (List ℝ) :=
        match cfg.pca with
        | some _ =>
          if failAt = some BuildStep.fitReducer then
            (some "SVD fit failed", s, raw)  -- raised inside `buildLSA`, `self.lsa` untouched
          else
            let s1 : EmbState ℝ := { s with lsa := some svd }  -- line 97
            if failAt = some BuildStep.applyPC then
              (some "removePC failed", s1, raw)  -- line 98 raised, `self.lsa` already replaced
            else
              (none, s1, removePC svd raw)
        | none => (none, s, raw)
      match step1 with
      | (some e, s1, _) => (some e, s1, false)
      | (none, s1, reduced) =>
        let processed := normalizeMatrix reduced  -- line 101
        let params := indexFactoryParams ids.length  -- line 105
        let s2 : EmbState ℝ := { s1 with embeddings := some ⟨params, false, []⟩ }  -- line 106
        if failAt = some BuildStep.train then
          (some "train failed", s2, false)  -- line 109 raised: new untrained index in place
        else
          let s3 : EmbState ℝ := { s2 with embeddings := some ⟨params, true, []⟩ }
          if failAt = some BuildStep.add then
            (some "add_with_ids failed", s3, false)  -- line 110 raised: trained but empty
          else
            (none, { s3 with embeddings := some ⟨params, true, ids.zip processed⟩ }, false)

/-- `Embeddings.transform` (embeddings.py lines 168-190) given the raw vector
`rawVec` that `self.model.transform(document)` produced: apply the fitted LSA
model if present (lines 184-185; with a single-component model the 1-D
`removePC` branch raises, propagated here as `none`), then normalize
(line 188).  The LSA model is only read, never refit — `buildLSA` is not
reachable from `transform`. -/
noncomputable def transform (lsa : Option (List (List ℝ))) (rawVec : List ℝ) :
    Option (List ℝ) :=
  match lsa with
  | some pc => (removePCvec pc rawVec).map normalizeVec
  | none => some (normalizeVec rawVec)

/-- The value `transform` yields whenever it does not raise: PC removal
(`input − (input·pcᵀ)·pc`) first, L2 normalization second. -/
noncomputable def transformVal (lsa : Option (List (List ℝ))) (rawVec : List ℝ) :
    List ℝ :=
  normalizeVec (match lsa with
    | some pc => removePCspec pc rawVec
    | none => rawVec)

/-- A Python list comprehension over a raising function: stop at the first
raised error, otherwise collect the results in order. -/
def mapOpt {β γ : Type} (f : β → Option γ) : List β → Option (List γ)
  | [] => some []
  | x :: xs => do
    let y ← f x
    let ys ← mapOpt f xs
    some (y :: ys)

/-- `Embeddings.similarity` (embeddings.py lines 214-230) given the raw vectors
of the query and the documents: transform the query (line 226), then each
document (line 227; an exception in any transform propagates), then
`np.dot(query, documents.T)[0]` — the vector of dot products of the
transformed query with each transformed document, in input order. -/
noncomputable def similarity (lsa : Option (List (List ℝ))) (qraw : List ℝ)
    (draws : List (List ℝ)) : Option (List ℝ) := do
  let tq ← transform lsa qraw
  let tds ← mapOpt (transform lsa) draws
  some (matVecT tq tds)

/-- `Embeddings.search` (embeddings.py lines 192-212) at the ANN layer, over the
already-transformed query vector: delegate to the index's search and return the
`(id, score)` pairs.  (The query-side `transform` is shared with `transform`
above; the result's length and ordering do not depend on the query vector.) -/
def searchEntries (s : EmbState ℚ) (qv : List ℚ) (limit : ℕ) : List (Int × ℚ) :=
  annSearch (match s.embeddings with
    | some a => a.entries
    | none => []) qv limit

/-! ### Persistence (`Embeddings.save` / `Embeddings.load`, lines 232-293)

Modelled from the spec where the artifacts' byte-level formats are concerned:
pickle and `faiss.write_index`/`read_index` are external and are taken to
round-trip the serialized value faithfully, so the filesystem stores the
values themselves.  Files are keyed by `(directory, name)`, standing for the
`"%s/config" % path`-style paths of the source. -/

/-- One serialized artifact. -/
inductive Artifact (α : Type) : Type
  | config : Config → Artifact α
  | ann : AnnIndex α → Artifact α
  | lsa : List (List α) → Artifact α
  | scoring : ScoringModel → Artifact α
deriving DecidableEq

/-- Deserialize as a configuration (pickle yields the stored value or the file
holds something else). -/
def Artifact.asConfig {α : Type} : Artifact α → Option Config
  | Artifact.config c => some c
  | _ => none

/-- Deserialize as a faiss index. -/
def Artifact.asAnn {α : Type} : Artifact α → Option (AnnIndex α)
  | Artifact.ann a => some a
  | _ => none

/-- Deserialize as an LSA model. -/
def Artifact.asLsa {α : Type} : Artifact α → Option (List (List α))
  | Artifact.lsa l => some l
  | _ => none

/-- Deserialize as a scoring model. -/
def Artifact.asScoring {α : Type} : Artifact α → Option ScoringModel
  | Artifact.scoring sm => some sm
  | _ => none

/-- The filesystem: the directories created so far and the files written,
most recent first. -/
structure FS (α : Type) : Type where
  dirs : List String
  files : List ((String × String) × Artifact α)
deriving DecidableEq

/-- Write (or overwrite) one file. -/
def fsWrite {α : Type} (fs : FS α) (k : String × String) (a : Artifact α) : FS α :=
  { fs with files := (k, a) :: fs.files }

/-- Look a key up among the written files (most recent write wins). -/
def findKey {α : Type} : List ((String × String) × Artifact α) → String × String →
    Option (Artifact α)
  | [], _ => none
  | (key, a) :: rest, k => if key = k then some a else findKey rest k

/-- Read one file. -/
def fsRead {α : Type} (fs : FS α) (k : String × String) : Option (Artifact α) :=
  findKey fs.files k

/-- `Embeddings.save` (embeddings.py lines 267-293): a no-op when `self.config`
is `None`; otherwise create the directory, write `config`, write the faiss
index (`faiss.write_index(self.embeddings, …)` raises when `self.embeddings`
is `None` — after `config` was already written), then write `lsa` iff
`self.lsa` is set and the scoring artifacts iff `self.scoring` is set.  The
method contains no assignment to `self`, so the state component is returned
unchanged on every path. -/
def save {α : Type} (s : EmbState α) (path : String) (fs : FS α) :
    Option String × EmbState α × FS α :=
  match s.config with
  | none => (none, s, fs)
  | some cfg =>
    let fs1 : FS α := { fs with dirs := path :: fs.dirs }  -- os.makedirs(path, exist_ok=True)
    let fs2 := fsWrite fs1 (path, "config") (Artifact.config cfg)
    match s.embeddings with
    | none => (some "write_index failed", s, fs2)
    | some ann =>
      let fs3 := fsWrite fs2 (path, "embeddings") (Artifact.ann ann)
      let fs4 := match s.lsa with
        | some l => fsWrite fs3 (path, "lsa") (Artifact.lsa l)
        | none => fs3
      let fs5 := match s.scoring with
        | some sm => fsWrite fs4 (path, "scoring") (Artifact.scoring sm)
        | none => fs4
      (none, s, fs5)

/-- `Embeddings.load` (embeddings.py lines 232-265): read `config`, read the
faiss index, read `lsa` iff the loaded configuration has `pca`, recreate and
load the scoring model iff it has `scoring` (Modelled from the spec: the
scoring collaborator round-trips through its artifacts), then re-resolve the
vector-source model from the loaded configuration and the current scoring
model.  `none` models `load` raising because an expected file is absent or
holds the wrong kind of value. -/
def load {α : Type} (s : EmbState α) (path : String) (fs : FS α) :
    Option (EmbState α) := do
  let cfg ← (fsRead fs (path, "config")).bind Artifact.asConfig
  let ann ← (fsRead fs (path, "embeddings")).bind Artifact.asAnn
  let s1 : EmbState α := { s with config := some cfg, embeddings := some ann }
  let s2 : EmbState α ← match cfg.pca with
    | some _ => do
        let l ← (fsRead fs (path, "lsa")).bind Artifact.asLsa
        pure { s1 with lsa := some l }
    | none => pure s1
  let s3 : EmbState α ← match cfg.scoring with
    | some _ => do
        let sm ← (fsRead fs (path, "scoring")).bind Artifact.asScoring
        pure { s2 with scoring := some sm }
    | none => pure s2
  pure { s3 with model := some ⟨cfg.method, cfg.path, s3.scoring⟩ }

/-! ## Lemmas -/

section RemovePCLemmas

variable {α : Type} [CommRing α]

lemma zipWith_map_self {β γ : Type} (f : β → γ → β) (g : β → γ) (l : List β) :
    List.zipWith f l (l.map g) = l.map (fun x => f x (g x)) := by
  induction l with
  | nil => rfl
  | cons x xs ih => simp [ih]

/-- Both branches of the matrix path of `removePC` compute
`input − (input·pcᵀ)·pc` row by row (2-D broadcasting is well-defined for
every `k`, including `k = 1`). -/
lemma removePC_eq_map_spec (pc : List (List α)) (e : List (List α)) :
    removePC pc e = e.map (removePCspec pc) := by
  unfold removePC
  by_cases h : pc.length = 1
  · simp only [h, if_true, zipWith_map_self]
    obtain ⟨r, hr⟩ : ∃ r, pc = [r] := by
      cases pc with
      | nil => simp at h
      | cons a t =>
        cases t with
        | nil => exact ⟨a, rfl⟩
        | cons b t2 => simp at h
    subst hr
    exact List.map_congr_left fun row _ => by simp [matVecT, removePCspec, vecMatL]
  · simp only [h, if_false, zipWith_map_self]
    rfl

/-- On a 1-D input the non-broadcast branch of `removePC` computes
`v − (v·pcᵀ)·pc`. -/
lemma removePCvec_of_len_ne_one (pc : List (List α)) (v : List α)
    (h : pc.length ≠ 1) : removePCvec pc v = some (removePCspec pc v) := by
  unfold removePCvec removePCspec
  simp [h]

/-- On a 1-D input the `k == 1` branch of `removePC` raises. -/
lemma removePCvec_of_len_one (pc : List (List α)) (v : List α)
    (h : pc.length = 1) : removePCvec pc v = none := by
  unfold removePCvec
  simp [h]

end RemovePCLemmas

section NormalizeLemmas

lemma sumsq_cons (y : ℝ) (ys : List ℝ) : sumsq (y :: ys) = y ^ 2 + sumsq ys := by
  simp [sumsq]

lemma sumsq_nonneg (v : List ℝ) : 0 ≤ sumsq v := by
  induction v with
  | nil => simp [sumsq]
  | cons x xs ih => rw [sumsq_cons]; exact add_nonneg (sq_nonneg x) ih

lemma sq_le_sumsq {x : ℝ} {v : List ℝ} (hx : x ∈ v) : x ^ 2 ≤ sumsq v := by
  induction v with
  | nil => simp at hx
  | cons y ys ih =>
    rw [sumsq_cons]
    rcases List.mem_cons.mp hx with h | h
    · subst h
      exact le_add_of_nonneg_right (sumsq_nonneg ys)
    · exact (ih h).trans (le_add_of_nonneg_left (sq_nonneg y))

lemma sumsq_pos {v : List ℝ} (h : ∃ x ∈ v, x ≠ 0) : 0 < sumsq v := by
  obtain ⟨x, hx, hne⟩ := h
  exact lt_of_lt_of_le (by positivity) (sq_le_sumsq hx)

lemma norm2_pos {v : List ℝ} (h : ∃ x ∈ v, x ≠ 0) : 0 < norm2 v :=
  Real.sqrt_pos.mpr (sumsq_pos h)

lemma sumsq_map_div (v : List ℝ) (c : ℝ) :
    sumsq (v.map (fun x => x / c)) = sumsq v / c ^ 2 := by
  induction v with
  | nil => simp [sumsq]
  | cons x xs ih =>
    simp only [sumsq, List.map_cons, List.map_map, List.sum_cons] at *
    rw [ih, div_pow, div_add_div_same]

lemma sumsq_normalizeVec {v : List ℝ} (h : ∃ x ∈ v, x ≠ 0) :
    sumsq (normalizeVec v) = 1 := by
  unfold normalizeVec
  rw [sumsq_map_div, norm2, Real.sq_sqrt (sumsq_nonneg v),
    div_self (ne_of_gt (sumsq_pos h))]

lemma norm2_normalizeVec {v : List ℝ} (h : ∃ x ∈ v, x ≠ 0) :
    norm2 (normalizeVec v) = 1 := by
  rw [norm2, sumsq_normalizeVec h, Real.sqrt_one]

lemma normalizeVec_idem {v : List ℝ} (h : ∃ x ∈ v, x ≠ 0) :
    normalizeVec (normalizeVec v) = normalizeVec v := by
  conv_lhs => rw [normalizeVec, norm2_normalizeVec h]
  simp

lemma normalizeMatrix_eq_map (m : List (List ℝ)) :
    normalizeMatrix m = m.map normalizeVec := rfl

end NormalizeLemmas

section SearchLemmas

lemma length_annScores (entries : List (Int × List ℚ)) (q : List ℚ) :
    (annScores entries q).length = entries.length := by
  simp [annScores]

lemma length_annSearch (entries : List (Int × List ℚ)) (q : List ℚ) (k : ℕ) :
    (annSearch entries q k).length = min k entries.length := by
  rw [annSearch, List.length_take, List.length_insertionSort, length_annScores]

lemma sorted_annSearch (entries : List (Int × List ℚ)) (q : List ℚ) (k : ℕ) :
    (annSearch entries q k).Sorted scoreGe :=
  (List.sorted_insertionSort scoreGe (annScores entries q)).sublist
    (List.take_sublist k _)

lemma annSearch_all (entries : List (Int × List ℚ)) (q : List ℚ) {k : ℕ}
    (h : entries.length ≤ k) :
    annSearch entries q k = List.insertionSort scoreGe (annScores entries q) := by
  rw [annSearch]
  exact List.take_of_length_le
    (by rw [List.length_insertionSort, length_annScores]; exact h)

lemma dotL_self_eq_sumsq (v : List ℝ) : dotL v v = sumsq v := by
  induction v with
  | nil => rfl
  | cons x xs ih =>
    simp only [dotL, sumsq, List.zipWith_cons_cons, List.map_cons, List.sum_cons] at *
    rw [ih, sq]

/-- When the configured Reducer (if any) does not have exactly one component,
`transform` does not raise and returns PC-removal followed by normalization. -/
lemma transform_eq_transformVal (lsa : Option (List (List ℝ))) (rawVec : List ℝ)
    (h : ∀ pc, lsa = some pc → pc.length ≠ 1) :
    transform lsa rawVec = some (transformVal lsa rawVec) := by
  cases lsa with
  | none => rfl
  | some pc =>
    simp [transform, transformVal, removePCvec_of_len_ne_one pc rawVec (h pc rfl)]

lemma mapOpt_eq_map {β γ : Type} {f : β → Option γ} {g : β → γ}
    (h : ∀ x, f x = some (g x)) : ∀ l : List β, mapOpt f l = some (l.map g) := by
  intro l
  induction l with
  | nil => rfl
  | cons x xs ih => simp [mapOpt, h x, ih]

lemma similarity_eq_some (lsa : Option (List (List ℝ))) (qraw : List ℝ)
    (draws : List (List ℝ)) (h : ∀ pc, lsa = some pc → pc.length ≠ 1) :
    similarity lsa qraw draws =
      some (draws.map (fun d =>
        dotL (transformVal lsa qraw) (transformVal lsa d))) := by
  unfold similarity
  rw [transform_eq_transformVal lsa qraw h,
    mapOpt_eq_map (fun x => transform_eq_transformVal lsa x h)]
  simp [matVecT, List.map_map]

end SearchLemmas

/-! ## Claim theorems -/

/-- **C3 counterexample**: with two stored documents carrying identical vectors
the scores tie, so the result of a search is *not* strictly descending by
score (it is only non-increasing).  The result still has exactly
`min(k, corpusSize)` entries. -/
theorem search_not_strictly_descending_cex :
    (annSearch [(0, [1]), (1, [1])] [1] 2).length = min 2 2 ∧
    ¬ (annSearch [(0, [1]), (1, [1])] [1] 2).Pairwise (fun a b => b.2 < a.2) := by
  have h : annSearch [(0, [1]), (1, [1])] [1] 2 = [(0, 1), (1, 1)] := by
    norm_num [annSearch, annScores, dotL, List.insertionSort, List.orderedInsert,
      scoreGe]
  rw [h]
  refine ⟨by norm_num, ?_⟩
  simp [List.pairwise_cons]

/-- **C3 amended**: for every built index and every (transformed) query vector
and limit `k`, the search returns exactly `min(k, corpusSize)` `(id, score)`
pairs ordered *non-increasingly* by score (strict descent fails on ties, which
are broken in a deterministic order); when `k` is at least the index size the
result is a permutation of all stored entries with their scores — all entries
and nothing more. -/
theorem search_limit_semantics :
    ∀ (entries : List (Int × List ℚ)) (q : List ℚ) (k : ℕ),
      (annSearch entries q k).length = min k entries.length ∧
      (annSearch entries q k).Sorted scoreGe ∧
      (entries.length ≤ k →
        (annSearch entries q k).Perm (annScores entries q)) :=
  fun entries q k =>
    ⟨length_annSearch entries q k, sorted_annSearch entries q k,
      fun h => (annSearch_all entries q h).symm ▸
        List.perm_insertionSort scoreGe (annScores entries q)⟩

/-- Witness for the amended C3 at a one-entry index searched with `k = 3`. -/
theorem search_limit_semantics_witness :
    (([(0, [1])] : List (Int × List ℚ)).length ≤ 3) ∧
    (annSearch [(0, [1])] [1] 3).Perm (annScores [(0, [1])] [1]) :=
  ⟨by norm_num,
    (search_limit_semantics [(0, [1])] [1] 3).2.2 (by norm_num)⟩

/-- **C6 counterexample**: with a single-component Reducer configured, the
query-side `transform` hits the `k == 1` broadcasting `ValueError`, so
`similarity` raises and returns no scores at all — not one score per document
as the claim states. -/
theorem similarity_k1_raises_cex :
    similarity (some [[(1 : ℝ)]]) [1] [[1]] = none := by
  simp [similarity, transform, removePCvec]

/-- **C6 amended**: provided the configured Reducer (if any) does not have
exactly one component — with a single-component Reducer the `k == 1`
broadcasting bug makes `transform` raise, so `similarity` returns no scores —
`similarity` returns one score per document, in input order, the `i`-th being
the dot product of the transformed query and the transformed `i`-th document;
and a query used as its own document scores exactly 1 (its reduced vector
being non-zero). -/
theorem similarity_order_and_selfscore :
    (∀ (lsa : Option (List (List ℝ))) (qraw : List ℝ) (draws : List (List ℝ)),
      (∀ pc, lsa = some pc → pc.length ≠ 1) →
      ∃ scores : List ℝ, similarity lsa qraw draws = some scores ∧
        scores.length = draws.length ∧
        ∀ i : ℕ, scores[i]? =
          (draws[i]?).map (fun d =>
            dotL (transformVal lsa qraw) (transformVal lsa d))) ∧
    (∀ (lsa : Option (List (List ℝ))) (qraw : List ℝ),
      (∀ pc, lsa = some pc → pc.length ≠ 1) →
      (∃ x ∈ ((match lsa with
        | some pc => removePCspec pc qraw
        | none => qraw) : List ℝ), x ≠ 0) →
      ∃ scores : List ℝ, similarity lsa qraw [qraw] = some scores ∧
        scores[0]? = some 1) := by
  constructor
  · intro lsa qraw draws h
    exact ⟨draws.map (fun d => dotL (transformVal lsa qraw) (transformVal lsa d)),
      similarity_eq_some lsa qraw draws h, List.length_map draws _,
      fun i => List.getElem?_map _ draws i⟩
  · intro lsa qraw h hnz
    refine ⟨[dotL (transformVal lsa qraw) (transformVal lsa qraw)], ?_, ?_⟩
    · simpa using similarity_eq_some lsa qraw [qraw] h
    · simp only [List.getElem?_cons_zero, Option.some.injEq]
      unfold transformVal
      rw [dotL_self_eq_sumsq]
      exact sumsq_normalizeVec hnz

/-- Witness for the amended C6: a query with raw vector `[1]` and no LSA model
scores exactly 1 against itself. -/
theorem similarity_order_and_selfscore_witness :
    (∀ pc : List (List ℝ), (none : Option (List (List ℝ))) = some pc →
      pc.length ≠ 1) ∧
    (∃ x ∈ ([1] : List ℝ), x ≠ 0) ∧
    (∃ scores : List ℝ, similarity none [1] [[1]] = some scores ∧
      scores[0]? = some 1) :=
  ⟨fun pc h => by simp at h, ⟨(1 : ℝ), by norm_num⟩,
    similarity_order_and_selfscore.2 none [1] (fun pc h => by simp at h)
      ⟨(1 : ℝ), by norm_num⟩⟩

/-- **C8**: with a Reducer configured, build time and query time apply the same
two steps in the same order — Reducer first, L2-normalization second.  Every
row stored at build time is `normalizeVec (removePCspec pc row)` (conjuncts 1
and 4), and *every vector `transform` returns* is `normalizeVec (removePCspec
pc input)` of its input (conjunct 2; with a single-component Reducer,
`transform` raises — C4's code bug — and returns no vector, so the conjunct
covers it vacuously; conjunct 3 shows that for every other Reducer size the
query-time result exists and is exactly the build-time composition).
`transform` takes the already-fitted model as an input and cannot reach
`buildLSA`, so it never refits. -/
theorem build_query_pipeline_consistent :
    ∀ (pc : List (List ℝ)) (raw : List (List ℝ)) (v : List ℝ),
      normalizeMatrix (removePC pc raw) =
        raw.map (fun r => normalizeVec (removePCspec pc r)) ∧
      (∀ w : List ℝ, transform (some pc) v = some w →
        w = normalizeVec (removePCspec pc v)) ∧
      (pc.length ≠ 1 →
        transform (some pc) v = some (normalizeVec (removePCspec pc v))) ∧
      (∀ (ids : List Int) (s : EmbState ℝ) (cfg : Config),
        s.config = some cfg → cfg.pca.isSome →
        (index none ids raw pc s).2.1.embeddings =
          some ⟨indexFactoryParams ids.length, true,
            ids.zip (raw.map (fun r => normalizeVec (removePCspec pc r)))⟩) := by
  intro pc raw v
  have hmap : normalizeMatrix (removePC pc raw) =
      raw.map (fun r => normalizeVec (removePCspec pc r)) := by
    rw [normalizeMatrix_eq_map, removePC_eq_map_spec, List.map_map]
    rfl
  refine ⟨hmap, ?_, ?_, ?_⟩
  · intro w hw
    by_cases h : pc.length = 1
    · rw [transform, removePCvec_of_len_one pc v h] at hw
      exact absurd hw (by simp)
    · rw [transform, removePCvec_of_len_ne_one pc v h] at hw
      simpa using hw.symm
  · intro h
    rw [transform, removePCvec_of_len_ne_one pc v h]
    rfl
  · intro ids s cfg hc hp
    obtain ⟨kc, hkc⟩ := Option.isSome_iff_exists.mp hp
    simp [index, hc, hkc, hmap]

/-- Witness for C8: the query-time conjunct at a two-component model, and a
concrete successful one-document build. -/
theorem build_query_pipeline_consistent_witness :
    (([[(1 : ℝ)], [0]] : List (List ℝ)).length ≠ 1 ∧
      transform (some [[(1 : ℝ)], [0]]) [1] =
        some (normalizeVec (removePCspec [[(1 : ℝ)], [0]] [1]))) ∧
    ((⟨some ⟨"p", none, none, some 1⟩, none, none, none, none⟩ : EmbState ℝ).config =
        some ⟨"p", none, none, some 1⟩ ∧
      ((⟨"p", none, none, some 1⟩ : Config).pca.isSome = true) ∧
      (index none [7] [[2]] [[1]]
          ⟨some ⟨"p", none, none, some 1⟩, none, none, none, none⟩).2.1.embeddings =
        some ⟨indexFactoryParams ([7] : List Int).length, true,
          ([7] : List Int).zip (([[2]] : List (List ℝ)).map
            (fun r => normalizeVec (removePCspec [[(1 : ℝ)]] r)))⟩) :=
  ⟨⟨by norm_num,
    (build_query_pipeline_consistent [[(1 : ℝ)], [0]] [] [1]).2.2.1 (by norm_num)⟩,
   ⟨rfl, rfl,
    ((build_query_pipeline_consistent [[(1 : ℝ)]] [[2]] []).2.2.2 [7]
      ⟨some ⟨"p", none, none, some 1⟩, none, none, none, none⟩
      ⟨"p", none, none, some 1⟩ rfl rfl)⟩⟩

/-- **C4** (code bug): the three `removePC` paths are *not* all equivalent.
With a single-component model (`pca = 1`) a 1-D input is dispatched to the
`k == 1` branch, whose `embeddings -= factor * pc` broadcasts `(1,) * (1,d)`
to `(1,d)` and raises a NumPy non-broadcastable-output `ValueError` (`none`)
instead of computing `v − (v·pcᵀ)·pc`; the same data through the matrix path
(a one-row matrix) does compute the claimed value `[0]`.  With `k ≠ 1` (here
`k = 2`) the single-vector path and the row-wise path on a one-row matrix
agree and both compute the formula.  (Exact arithmetic over ℚ.) -/
theorem removePC_k1_vector_error :
    removePCvec [[(1 : ℚ)]] [1] = none ∧
    removePC [[(1 : ℚ)]] [[1]] = [[0]] ∧
    removePCspec [[(1 : ℚ)]] [1] = [0] ∧
    removePCvec [[(1 : ℚ)], [0]] [1] = some [0] ∧
    removePC [[(1 : ℚ)], [0]] [[1]] = [[0]] ∧
    removePCspec [[(1 : ℚ)], [0]] [1] = [0] := by
  refine ⟨rfl, ?_, ?_, ?_, ?_, ?_⟩ <;>
    norm_num [removePC, removePCvec, removePCspec, matVecT, dotL, vecMatL,
      subL, smulL, addL]

/-- **C5**: for every non-zero vector `v`, `Normalize(v)` has L2 norm 1 and
`Normalize` is idempotent on `v`; for a matrix, each row is normalized
independently (by its own norm). -/
theorem normalize_norm_one_and_idem :
    (∀ v : List ℝ, (∃ x ∈ v, x ≠ 0) →
      norm2 (normalizeVec v) = 1 ∧
      normalizeVec (normalizeVec v) = normalizeVec v) ∧
    (∀ m : List (List ℝ), normalizeMatrix m = m.map normalizeVec) :=
  ⟨fun _ h => ⟨norm2_normalizeVec h, normalizeVec_idem h⟩, fun _ => rfl⟩

/-- **C1**: the ANN structure is selected by the single size threshold 5000:
below it the flat, id-mapped structure (no training phase) is built, at or
above it the inverted-file structure with 100 partitions, which is trained
before vectors are added; every search probes `nprobe = 6` partitions.  The
last two conjuncts show train-before-add in the `index` transition: when the
`add_with_ids` step runs (or fails), the index it operates on is already
trained, and a successful call returns the trained index filled with all
`(id, vector)` pairs. -/
theorem structure_selection_threshold :
    (∀ n : ℕ, n < 5000 →
      indexFactoryParams n = "IDMap,SQ8" ∧
      annKindOf (indexFactoryParams n) = some AnnKind.flatIdMap ∧
      annRequiresTraining AnnKind.flatIdMap = false) ∧
    (∀ n : ℕ, 5000 ≤ n →
      indexFactoryParams n = "IVF100,SQ8" ∧
      annKindOf (indexFactoryParams n) = some (AnnKind.partitioned 100) ∧
      annRequiresTraining (AnnKind.partitioned 100) = true) ∧
    searchNprobe = 6 ∧
    (∀ (ids : List Int) (raw svd : List (List ℝ)) (s : EmbState ℝ) (cfg : Config),
      s.config = some cfg →
      (index (some BuildStep.add) ids raw svd s).2.1.embeddings =
        some ⟨indexFactoryParams ids.length, true, []⟩ ∧
      (index none ids raw svd s).1 = none ∧
      (index none ids raw svd s).2.1.embeddings =
        some ⟨indexFactoryParams ids.length, true,
          ids.zip (normalizeMatrix (match cfg.pca with
            | some _ => removePC svd raw
            | none => raw))⟩) := by
  refine ⟨?_, ?_, rfl, ?_⟩
  · intro n hn
    have h : ¬ (5000 ≤ n) := by omega
    refine ⟨by simp [indexFactoryParams, h], ?_, rfl⟩
    simp [indexFactoryParams, h, annKindOf]
  · intro n hn
    refine ⟨by simp [indexFactoryParams, hn], ?_, rfl⟩
    simp [indexFactoryParams, hn, annKindOf]
  · intro ids raw svd s cfg hc
    cases hp : cfg.pca <;>
      simp [index, hc, hp]

/-- Witness for C1 at the boundary sizes 4999 and 5000 and at a concrete
one-document build. -/
theorem structure_selection_threshold_witness :
    ((4999 < 5000) ∧
      indexFactoryParams 4999 = "IDMap,SQ8" ∧
      annKindOf (indexFactoryParams 4999) = some AnnKind.flatIdMap ∧
      annRequiresTraining AnnKind.flatIdMap = false) ∧
    ((5000 ≤ 5000) ∧
      indexFactoryParams 5000 = "IVF100,SQ8" ∧
      annKindOf (indexFactoryParams 5000) = some (AnnKind.partitioned 100) ∧
      annRequiresTraining (AnnKind.partitioned 100) = true) ∧
    (((⟨some ⟨"p", none, none, some 1⟩, none, none, none, none⟩ : EmbState ℝ).config =
        some ⟨"p", none, none, some 1⟩) ∧
      (index (some BuildStep.add) [7] [[2]] [[3]]
          ⟨some ⟨"p", none, none, some 1⟩, none, none, none, none⟩).2.1.embeddings =
        some ⟨indexFactoryParams ([7] : List Int).length, true, []⟩) :=
  ⟨⟨by norm_num, structure_selection_threshold.1 4999 (by norm_num)⟩,
   ⟨le_refl 5000, structure_selection_threshold.2.1 5000 (le_refl 5000)⟩,
   ⟨rfl, (structure_selection_threshold.2.2.2 [7] [[2]] [[3]]
      ⟨some ⟨"p", none, none, some 1⟩, none, none, none, none⟩
      ⟨"p", none, none, some 1⟩ rfl).1⟩⟩

/-- **C2 counterexample**: a concrete `index` call that fails (at the faiss
`train` step) and nevertheless replaces both the previously built Reducer and
the previously built ANN index: the old state held `lsa = [[1]]` and a trained
one-entry index, the failed call leaves `lsa = [[3]]` and a fresh untrained
empty index. -/
theorem index_not_atomic_cex :
    (index (some BuildStep.train) [5] [[2]] [[3]]
      ⟨some ⟨"p", none, none, some 1⟩, some ⟨"IDMap,SQ8", true, [(1, [1])]⟩,
        some [[1]], none, none⟩).1 = some "train failed" ∧
    (index (some BuildStep.train) [5] [[2]] [[3]]
      ⟨some ⟨"p", none, none, some 1⟩, some ⟨"IDMap,SQ8", true, [(1, [1])]⟩,
        some [[1]], none, none⟩).2.1.lsa = some [[3]] ∧
    (some [[3]] : Option (List (List ℝ))) ≠ some [[1]] ∧
    (index (some BuildStep.train) [5] [[2]] [[3]]
      ⟨some ⟨"p", none, none, some 1⟩, some ⟨"IDMap,SQ8", true, [(1, [1])]⟩,
        some [[1]], none, none⟩).2.1.embeddings = some ⟨"IDMap,SQ8", false, []⟩ ∧
    (some ⟨"IDMap,SQ8", false, []⟩ : Option (AnnIndex ℝ)) ≠
      some ⟨"IDMap,SQ8", true, [(1, [1])]⟩ := by
  refine ⟨by simp [index, indexFactoryParams], by simp [index], ?_, ?_, ?_⟩
  · simp only [ne_eq, Option.some.injEq, List.cons.injEq, and_true]
    norm_num
  · simp [index, indexFactoryParams]
  · simp

/-- **C2 amended**: `index` is not atomic — a failing call leaves exactly the
`self` assignments performed before the failing line.  A failure at (or
before) the Reducer fit leaves both the old Reducer and old index; a failure
during PC removal leaves the new Reducer with the old index; a failure during
faiss training leaves the new Reducer and a new untrained empty index; a
failure while adding vectors leaves a new trained but still empty index. -/
theorem index_failure_partial_state :
    ∀ (ids : List Int) (raw svd : List (List ℝ)) (s : EmbState ℝ) (cfg : Config),
      s.config = some cfg →
      (index (some BuildStep.readStream) ids raw svd s).2.1 = s ∧
      (cfg.pca.isSome →
        (index (some BuildStep.fitReducer) ids raw svd s).2.1 = s) ∧
      (cfg.pca.isSome →
        (index (some BuildStep.applyPC) ids raw svd s).2.1 =
          { s with lsa := some svd }) ∧
      (index (some BuildStep.train) ids raw svd s).2.1 =
        { s with lsa := if cfg.pca.isSome then some svd else s.lsa,
                 embeddings := some ⟨indexFactoryParams ids.length, false, []⟩ } ∧
      (index (some BuildStep.add) ids raw svd s).2.1 =
        { s with lsa := if cfg.pca.isSome then some svd else s.lsa,
                 embeddings := some ⟨indexFactoryParams ids.length, true, []⟩ } := by
  intro ids raw svd s cfg hc
  cases hp : cfg.pca <;>
    simp [index, hc, hp]

/-- Witness for the amended C2 at a concrete state with `pca` configured. -/
theorem index_failure_partial_state_witness :
    ((⟨some ⟨"p", none, none, some 1⟩, some ⟨"IDMap,SQ8", true, [(1, [1])]⟩,
        some [[1]], none, none⟩ : EmbState ℝ).config = some ⟨"p", none, none, some 1⟩) ∧
    (index (some BuildStep.readStream) [5] [[2]] [[3]]
      ⟨some ⟨"p", none, none, some 1⟩, some ⟨"IDMap,SQ8", true, [(1, [1])]⟩,
        some [[1]], none, none⟩).2.1 =
      ⟨some ⟨"p", none, none, some 1⟩, some ⟨"IDMap,SQ8", true, [(1, [1])]⟩,
        some [[1]], none, none⟩ :=
  ⟨rfl, (index_failure_partial_state [5] [[2]] [[3]]
    ⟨some ⟨"p", none, none, some 1⟩, some ⟨"IDMap,SQ8", true, [(1, [1])]⟩,
      some [[1]], none, none⟩ ⟨"p", none, none, some 1⟩ rfl).1⟩

/-- **C9 counterexample**: a concrete `index` call that fails partway through
reading the vector stream and returns with the temporary stream file still
present. -/
theorem index_temp_leak_cex :
    (index (some BuildStep.readStream) [5] [[2]] [[3]] (emptyState ℝ)).1.isSome = true ∧
    (index (some BuildStep.readStream) [5] [[2]] [[3]] (emptyState ℝ)).2.2 = true := by
  constructor <;> simp [index]

/-- **C9 amended**: the temporary stream file is removed on every exit path of
`index` except one — `os.remove(stream)` runs only after the reading loop
completes, so a failure partway through reading the stream (a raising
`pickle.load`) returns with the file still on disk. -/
theorem index_temp_file :
    ∀ (failAt : Option BuildStep) (ids : List Int) (raw svd : List (List ℝ))
      (s : EmbState ℝ),
      (failAt ≠ some BuildStep.readStream →
        (index failAt ids raw svd s).2.2 = false) ∧
      ((index (some BuildStep.readStream) ids raw svd s).2.2 = true ∧
        (index (some BuildStep.readStream) ids raw svd s).1.isSome = true) := by
  intro failAt ids raw svd s
  refine ⟨?_, by simp [index], by simp [index]⟩
  intro h
  unfold index
  rw [if_neg h]
  cases hc : s.config with
  | none => rfl
  | some cfg =>
    cases hp : cfg.pca <;>
      by_cases h1 : failAt = some BuildStep.fitReducer <;>
      by_cases h2 : failAt = some BuildStep.applyPC <;>
      by_cases h3 : failAt = some BuildStep.train <;>
      by_cases h4 : failAt = some BuildStep.add <;>
      simp_all

/-- Witness for the amended C9: a successful call and a call failing at the
faiss train step both return with the temp file removed. -/
theorem index_temp_file_witness :
    ((none : Option BuildStep) ≠ some BuildStep.readStream ∧
      (index none [5] [[2]] [[3]] (emptyState ℝ)).2.2 = false) ∧
    (some BuildStep.train ≠ some BuildStep.readStream ∧
      (index (some BuildStep.train) [5] [[2]] [[3]] (emptyState ℝ)).2.2 = false) :=
  ⟨⟨by simp, (index_temp_file none [5] [[2]] [[3]] (emptyState ℝ)).1 (by simp)⟩,
   ⟨by simp, (index_temp_file (some BuildStep.train) [5] [[2]] [[3]]
      (emptyState ℝ)).1 (by simp)⟩⟩

/-- **C10**: `save` on an Orchestrator constructed without a configuration is a
silent no-op — no error, no directory created, no file written, and the state
returned unchanged. -/
theorem save_noop_without_config :
    ∀ (s : EmbState ℚ) (path : String) (fs : FS ℚ),
      s.config = none → save s path fs = (none, s, fs) := by
  intro s path fs h
  simp [save, h]

/-- Witness for C10 at a fresh Orchestrator and an empty filesystem. -/
theorem save_noop_without_config_witness :
    ((emptyState ℚ).config = none) ∧
    save (emptyState ℚ) "dir" ⟨[], []⟩ = (none, emptyState ℚ, ⟨[], []⟩) :=
  ⟨rfl, save_noop_without_config (emptyState ℚ) "dir" ⟨[], []⟩ rfl⟩

/-- **C7**: persistence round-trip — for a built Orchestrator (configuration
present, index built, Reducer present iff `pca` configured, scoring present
iff `scoring` configured, vector model resolved from the configuration),
`save` followed by `load` into a fresh Orchestrator reconstructs the
configuration, ANN index, Reducer, scoring model and vector model, so every
search returns the same ordered `(id, score)` sequence as on the original. -/
theorem save_load_roundtrip :
    ∀ (s : EmbState ℚ) (cfg : Config) (ann : AnnIndex ℚ) (path : String) (fs : FS ℚ),
      s.config = some cfg →
      s.embeddings = some ann →
      (s.lsa.isSome ↔ cfg.pca.isSome) →
      (s.scoring.isSome ↔ cfg.scoring.isSome) →
      s.model = some ⟨cfg.method, cfg.path, s.scoring⟩ →
      ∃ s2 : EmbState ℚ,
        load (emptyState ℚ) path (save s path fs).2.2 = some s2 ∧
        s2.config = s.config ∧
        s2.embeddings = s.embeddings ∧
        s2.lsa = s.lsa ∧
        s2.scoring = s.scoring ∧
        s2.model = s.model ∧
        ∀ (qv : List ℚ) (k : ℕ), searchEntries s2 qv k = searchEntries s qv k := by
  intro s cfg ann path fs hc he hlsa hsc hm
  cases hp : cfg.pca with
  | none =>
    have hl : s.lsa = none := by
      rw [← Option.not_isSome_iff_eq_none, hlsa, hp]
      simp
    cases hq : cfg.scoring with
    | none =>
      have hs : s.scoring = none := by
        rw [← Option.not_isSome_iff_eq_none, hsc, hq]
        simp
      refine ⟨⟨some cfg, some ann, none, none, some ⟨cfg.method, cfg.path, none⟩⟩,
        ?_, by rw [hc], by rw [he], by rw [hl], by rw [hs], by rw [hm, hs],
        fun qv k => by simp [searchEntries, he]⟩
      simp [save, hc, he, hl, hs, load, fsRead, fsWrite, findKey, hp, hq,
        emptyState, Artifact.asConfig, Artifact.asAnn]
    | some sel =>
      have : s.scoring.isSome := hsc.mpr (by rw [hq]; rfl)
      obtain ⟨sm, hs⟩ := Option.isSome_iff_exists.mp this
      refine ⟨⟨some cfg, some ann, none, some sm, some ⟨cfg.method, cfg.path, some sm⟩⟩,
        ?_, by rw [hc], by rw [he], by rw [hl], by rw [hs], by rw [hm, hs],
        fun qv k => by simp [searchEntries, he]⟩
      simp [save, hc, he, hl, hs, load, fsRead, fsWrite, findKey, hp, hq,
        emptyState, Artifact.asConfig, Artifact.asAnn, Artifact.asScoring]
  | some ncomp =>
    have : s.lsa.isSome := hlsa.mpr (by rw [hp]; rfl)
    obtain ⟨l, hl⟩ := Option.isSome_iff_exists.mp this
    cases hq : cfg.scoring with
    | none =>
      have hs : s.scoring = none := by
        rw [← Option.not_isSome_iff_eq_none, hsc, hq]
        simp
      refine ⟨⟨some cfg, some ann, some l, none, some ⟨cfg.method, cfg.path, none⟩⟩,
        ?_, by rw [hc], by rw [he], by rw [hl], by rw [hs], by rw [hm, hs],
        fun qv k => by simp [searchEntries, he]⟩
      simp [save, hc, he, hl, hs, load, fsRead, fsWrite, findKey, hp, hq,
        emptyState, Artifact.asConfig, Artifact.asAnn, Artifact.asLsa]
    | some sel =>
      have : s.scoring.isSome := hsc.mpr (by rw [hq]; rfl)
      obtain ⟨sm, hs⟩ := Option.isSome_iff_exists.mp this
      refine ⟨⟨some cfg, some ann, some l, some sm, some ⟨cfg.method, cfg.path, some sm⟩⟩,
        ?_, by rw [hc], by rw [he], by rw [hl], by rw [hs], by rw [hm, hs],
        fun qv k => by simp [searchEntries, he]⟩
      simp [save, hc, he, hl, hs, load, fsRead, fsWrite, findKey, hp, hq,
        emptyState, Artifact.asConfig, Artifact.asAnn, Artifact.asLsa,
        Artifact.asScoring]

/-- Witness for C7: a concrete built Orchestrator with `pca` and `scoring`
configured, saved to `"dir"` on an empty filesystem and reloaded. -/
theorem save_load_roundtrip_witness :
    ((⟨some ⟨"p", some "m", some "bm25", some 1⟩,
        some ⟨"IDMap,SQ8", true, [(0, [1])]⟩, some [[1]], some ⟨"bm25", 2⟩,
        some ⟨some "m", "p", some ⟨"bm25", 2⟩⟩⟩ : EmbState ℚ).config =
      some ⟨"p", some "m", some "bm25", some 1⟩) ∧
    (∃ s2 : EmbState ℚ,
      load (emptyState ℚ) "dir"
          (save (⟨some ⟨"p", some "m", some "bm25", some 1⟩,
            some ⟨"IDMap,SQ8", true, [(0, [1])]⟩, some [[1]], some ⟨"bm25", 2⟩,
            some ⟨some "m", "p", some ⟨"bm25", 2⟩⟩⟩ : EmbState ℚ) "dir" ⟨[], []⟩).2.2 =
        some s2 ∧
      s2.config = (⟨some ⟨"p", some "m", some "bm25", some 1⟩,
        some ⟨"IDMap,SQ8", true, [(0, [1])]⟩, some [[1]], some ⟨"bm25", 2⟩,
        some ⟨some "m", "p", some ⟨"bm25", 2⟩⟩⟩ : EmbState ℚ).config ∧
      s2.embeddings = (⟨some ⟨"p", some "m", some "bm25", some 1⟩,
        some ⟨"IDMap,SQ8", true, [(0, [1])]⟩, some [[1]], some ⟨"bm25", 2⟩,
        some ⟨some "m", "p", some ⟨"bm25", 2⟩⟩⟩ : EmbState ℚ).embeddings ∧
      s2.lsa = (⟨some ⟨"p", some "m", some "bm25", some 1⟩,
        some ⟨"IDMap,SQ8", true, [(0, [1])]⟩, some [[1]], some ⟨"bm25", 2⟩,
        some ⟨some "m", "p", some ⟨"bm25", 2⟩⟩⟩ : EmbState ℚ).lsa ∧
      s2.scoring = (⟨some ⟨"p", some "m", some "bm25", some 1⟩,
        some ⟨"IDMap,SQ8", true, [(0, [1])]⟩, some [[1]], some ⟨"bm25", 2⟩,
        some ⟨some "m", "p", some ⟨"bm25", 2⟩⟩⟩ : EmbState ℚ).scoring ∧
      s2.model = (⟨some ⟨"p", some "m", some "bm25", some 1⟩,
        some ⟨"IDMap,SQ8", true, [(0, [1])]⟩, some [[1]], some ⟨"bm25", 2⟩,
        some ⟨some "m", "p", some ⟨"bm25", 2⟩⟩⟩ : EmbState ℚ).model ∧
      ∀ (qv : List ℚ) (k : ℕ),
        searchEntries s2 qv k =
          searchEntries (⟨some ⟨"p", some "m", some "bm25", some 1⟩,
            some ⟨"IDMap,SQ8", true, [(0, [1])]⟩, some [[1]], some ⟨"bm25", 2⟩,
            some ⟨some "m", "p", some ⟨"bm25", 2⟩⟩⟩ : EmbState ℚ) qv k) :=
  ⟨rfl, save_load_roundtrip
    ⟨some ⟨"p", some "m", some "bm25", some 1⟩,
      some ⟨"IDMap,SQ8", true, [(0, [1])]⟩, some [[1]], some ⟨"bm25", 2⟩,
      some ⟨some "m", "p", some ⟨"bm25", 2⟩⟩⟩
    ⟨"p", some "m", some "bm25", some 1⟩ ⟨"IDMap,SQ8", true, [(0, [1])]⟩
    "dir" ⟨[], []⟩ rfl rfl (by simp) (by simp) rfl⟩

/-- Witness for C5 at the concrete non-zero vector `[3, 4]`. -/
theorem normalize_norm_one_and_idem_witness :
    (∃ x ∈ ([3, 4] : List ℝ), x ≠ 0) ∧
    (norm2 (normalizeVec [3, 4]) = 1 ∧
      normalizeVec (normalizeVec [3, 4]) = normalizeVec [3, 4]) :=
  ⟨⟨3, by norm_num⟩, normalize_norm_one_and_idem.1 [3, 4] ⟨3, by norm_num⟩⟩

end Txtai
